import Mathlib

/-!
Verification of the monitor/scene adaptor core: the time-windowed track and
airplane stores, the command rendering, the cuboid footprint derivation, the
inbound envelope handling, and the outbound command queue. Definitions are a
shallow embedding of src/scene_adaptor.py (and the matching logic of
src/monitor_adaptor.py); Python floats are modelled by rationals, Python dicts
by insertion-ordered association lists, and raised exceptions by Option/Except.
-/

namespace MonitorAdaptor

/-- Model of `Track` (src/scene_adaptor.py, lines 13-24): one observed sample
of a tracked object. Numeric fields are rationals standing for Python floats. -/
structure Track where
  id : Nat
  lng : ℚ
  lat : ℚ
  alt : ℚ
  track_at : ℚ
  type : String
  size : String
deriving DecidableEq

/-- The track store `SceneAdaptor.tracks` (a `Dict[int, List[Track]]`), as an
association list in dict insertion order. -/
abbrev TrackStore := List (Nat × List Track)

/-- One iteration of the append loop of `update_track` (lines 171-174):
append the sample to its id's history, creating the entry at the end of the
dict when the id is new. -/
def insertTrack : TrackStore → Track → TrackStore
  | [], t => [(t.id, [t])]
  | p :: ps, t =>
      if p.1 = t.id then (p.1, p.2 ++ [t]) :: ps else p :: insertTrack ps t

/-- Dict lookup of a track id's history, `[]` for an absent id. -/
def lookupHist : TrackStore → Nat → List Track
  | [], _ => []
  | p :: ps, id => if p.1 = id then p.2 else lookupHist ps id

/-- The whole append loop of `update_track` (lines 171-174). -/
def appendPhase (store : TrackStore) (batch : List Track) : TrackStore :=
  batch.foldl insertTrack store

/-- Line 176, `max(tracks, key=lambda t: t.track_at).track_at`; `none` models
the `ValueError` Python's `max` raises on an empty sequence. -/
def maxTrackAt : List Track → Option ℚ
  | [] => none
  | t :: ts => some (ts.foldl (fun m u => max m u.track_at) t.track_at)

/-- The eviction pass of `update_track` (lines 177-180): per id, keep the
samples within `ttl` of the latest batch timestamp, then drop the ids whose
history became empty. -/
def evictTracks (store : TrackStore) (tMax ttl : ℚ) : TrackStore :=
  (store.map fun p => (p.1, p.2.filter fun t => tMax - t.track_at ≤ ttl)).filter
    fun p => 0 < p.2.length

/-- The state transition of `SceneAdaptor.update_track` (lines 170-180);
`none` models the uncaught `ValueError` on an empty batch. -/
def applyTrackBatch (store : TrackStore) (batch : List Track) (ttl : ℚ) :
    Option TrackStore :=
  match maxTrackAt batch with
  | none => none
  | some tMax => some (evictTracks (appendPhase store batch) tMax ttl)

/-- One rendered track line of the `trackLines.show` command (lines 182-203):
the polyline of positions, the per-point altitudes, and the classification
taken from the last sample of the history (the loop variable after the loop). -/
structure TrackLine where
  positions : List (ℚ × ℚ)
  heightsInMeter : List ℚ
  type : String
  size : String
deriving DecidableEq

/-- Rendering of one id's retained history into a track line. -/
def renderTrackLine (hist : List Track) : TrackLine :=
  { positions := hist.map fun t => (t.lng, t.lat)
  , heightsInMeter := hist.map fun t => t.alt
  , type := ((hist.getLast?).map fun t => t.type).getD ""
  , size := ((hist.getLast?).map fun t => t.size).getD "" }

/-- The `trackLines.show(parameter, ids)` command payload (lines 205-209). -/
structure TrackCommand where
  trackLines : List TrackLine
  ids : List Nat
deriving DecidableEq

/-- `SceneAdaptor.update_track` (lines 170-210): mutate the store, then render
the full retained snapshot; `none` models the uncaught `ValueError` on an
empty batch. -/
def update_track (store : TrackStore) (batch : List Track) (ttl : ℚ) :
    Option (TrackStore × TrackCommand) :=
  match applyTrackBatch store batch ttl with
  | none => none
  | some store2 =>
      some (store2,
        { trackLines := store2.map fun p => renderTrackLine p.2
        , ids := store2.map fun p => p.1 })

/-! ## Basic lemmas about the track store -/

theorem lookupHist_insertTrack (store : TrackStore) (t : Track) (id : Nat) :
    lookupHist (insertTrack store t) id =
      if id = t.id then lookupHist store id ++ [t] else lookupHist store id := by
  induction store with
  | nil =>
      by_cases h : id = t.id
      · simp [insertTrack, lookupHist, h]
      · have h2 : ¬ t.id = id := fun hh => h hh.symm
        simp [insertTrack, lookupHist, h, h2]
  | cons p ps ih =>
      by_cases hp : p.1 = t.id
      · by_cases hid : p.1 = id
        · have ht : t.id = id := by rw [← hp]; exact hid
          show lookupHist
              (if p.1 = t.id then (p.1, p.2 ++ [t]) :: ps else p :: insertTrack ps t) id = _
          rw [if_pos hp]
          show (if p.1 = id then p.2 ++ [t] else lookupHist ps id) = _
          rw [if_pos hid, if_pos ht.symm]
          show p.2 ++ [t] = lookupHist (p :: ps) id ++ [t]
          show p.2 ++ [t] = (if p.1 = id then p.2 else lookupHist ps id) ++ [t]
          rw [if_pos hid]
        · have ht : ¬ t.id = id := fun hh => hid (by rw [hp, hh])
          have hit : ¬ id = t.id := fun hh => ht hh.symm
          show lookupHist
              (if p.1 = t.id then (p.1, p.2 ++ [t]) :: ps else p :: insertTrack ps t) id = _
          rw [if_pos hp]
          show (if p.1 = id then p.2 ++ [t] else lookupHist ps id) = _
          rw [if_neg hid, if_neg hit]
          show lookupHist ps id = lookupHist (p :: ps) id
          show lookupHist ps id = if p.1 = id then p.2 else lookupHist ps id
          rw [if_neg hid]
      · by_cases hid : p.1 = id
        · have h1 : ¬ id = t.id := fun hh => hp (hid.trans hh)
          simp [insertTrack, lookupHist, hp, hid, h1]
        · simp [insertTrack, lookupHist, hp, hid, ih]

theorem lookupHist_appendPhase (store : TrackStore) (batch : List Track)
    (id : Nat) :
    lookupHist (appendPhase store batch) id =
      lookupHist store id ++ batch.filter fun t => t.id = id := by
  induction batch generalizing store with
  | nil => simp [appendPhase]
  | cons t ts ih =>
      have step : appendPhase store (t :: ts) = appendPhase (insertTrack store t) ts := rfl
      rw [step, ih, lookupHist_insertTrack]
      by_cases h : t.id = id
      · simp [h, List.filter_cons]
      · have h2 : ¬ id = t.id := fun hh => h hh.symm
        simp [h, h2, List.filter_cons]

theorem le_foldl_maxTrackAt (ts : List Track) (i : ℚ) :
    i ≤ ts.foldl (fun m u => max m u.track_at) i := by
  induction ts generalizing i with
  | nil => exact le_refl i
  | cons u ts ih =>
      exact le_trans (le_max_left i u.track_at) (ih (max i u.track_at))

theorem mem_le_foldl_maxTrackAt (ts : List Track) (i : ℚ) :
    ∀ t ∈ ts, t.track_at ≤ ts.foldl (fun m u => max m u.track_at) i := by
  induction ts generalizing i with
  | nil => intro t ht; simp at ht
  | cons u ts ih =>
      intro t ht
      rcases List.mem_cons.mp ht with h | h
      · subst h
        exact le_trans (le_max_right i t.track_at)
          (le_foldl_maxTrackAt ts (max i t.track_at))
      · exact ih (max i u.track_at) t h

theorem foldl_maxTrackAt_mem (ts : List Track) (i : ℚ) :
    ts.foldl (fun m u => max m u.track_at) i = i ∨
      ∃ t ∈ ts, ts.foldl (fun m u => max m u.track_at) i = t.track_at := by
  induction ts generalizing i with
  | nil => exact Or.inl rfl
  | cons u ts ih =>
      rcases ih (max i u.track_at) with h | h
      · rcases max_choice i u.track_at with hm | hm
        · exact Or.inl (h.trans hm)
        · exact Or.inr ⟨u, List.mem_cons_self u ts, h.trans hm⟩
      · rcases h with ⟨t, ht, hval⟩
        exact Or.inr ⟨t, List.mem_cons_of_mem u ht, hval⟩

theorem mem_evictTracks (store : TrackStore) (tMax ttl : ℚ) :
    ∀ p ∈ evictTracks store tMax ttl,
      (∀ t ∈ p.2, tMax - t.track_at ≤ ttl) ∧ p.2 ≠ [] := by
  intro p hp
  unfold evictTracks at hp
  rcases List.mem_filter.mp hp with ⟨hmem, hlen⟩
  rcases List.mem_map.mp hmem with ⟨q, _, hq⟩
  constructor
  · intro t ht
    have h2 : t ∈ q.2.filter fun t => tMax - t.track_at ≤ ttl := by
      have : p.2 = q.2.filter fun t => tMax - t.track_at ≤ ttl := by
        rw [← hq]
      rw [this] at ht
      exact ht
    exact of_decide_eq_true (List.mem_filter.mp h2).2
  · intro hnil
    rw [hnil] at hlen
    simp at hlen

/-! ## Claims about `update_track` -/

/-- Claim C1: for every non-empty track batch applied with window `ttl` via
`update_track`, each sample of the batch is appended to its id's history;
with `tMax` the maximum timestamp across the batch, every sample retained in
the store afterward (over all ids) satisfies `tMax - sample.track_at ≤ ttl`;
and every id present in the store afterward has a non-empty history. -/
theorem update_track_eviction_invariant (store : TrackStore) (batch : List Track)
    (ttl tMax : ℚ) (hmax : maxTrackAt batch = some tMax) :
    ∃ store2 cmd, update_track store batch ttl = some (store2, cmd) ∧
      (∀ t ∈ batch, t.track_at ≤ tMax) ∧
      (tMax ∈ batch.map fun t => t.track_at) ∧
      (∀ p ∈ store2, ∀ t ∈ p.2, tMax - t.track_at ≤ ttl) ∧
      (∀ p ∈ store2, p.2 ≠ []) ∧
      (∀ id, lookupHist (appendPhase store batch) id =
        lookupHist store id ++ batch.filter fun t => t.id = id) := by
  cases batch with
  | nil => simp [maxTrackAt] at hmax
  | cons t ts =>
      have h1 : ts.foldl (fun m u => max m u.track_at) t.track_at = tMax := by
        have h2 := hmax
        simp [maxTrackAt] at h2
        exact h2
      refine ⟨evictTracks (appendPhase store (t :: ts)) tMax ttl,
        { trackLines := (evictTracks (appendPhase store (t :: ts)) tMax ttl).map
            fun p => renderTrackLine p.2
        , ids := (evictTracks (appendPhase store (t :: ts)) tMax ttl).map
            fun p => p.1 },
        ?_, ?_, ?_, ?_, ?_, ?_⟩
      · simp [update_track, applyTrackBatch, maxTrackAt, h1]
      · intro u hu
        rw [← h1]
        rcases List.mem_cons.mp hu with h | h
        · subst h; exact le_foldl_maxTrackAt ts u.track_at
        · exact mem_le_foldl_maxTrackAt ts t.track_at u h
      · rw [← h1]
        rcases foldl_maxTrackAt_mem ts t.track_at with h | ⟨u, hu, hval⟩
        · rw [h]; exact List.mem_map.mpr ⟨t, List.mem_cons_self t ts, rfl⟩
        · rw [hval]; exact List.mem_map.mpr ⟨u, List.mem_cons_of_mem t hu, rfl⟩
      · intro p hp
        exact (mem_evictTracks _ tMax ttl p hp).1
      · intro p hp
        exact (mem_evictTracks _ tMax ttl p hp).2
      · intro id
        exact lookupHist_appendPhase store (t :: ts) id

/-- A concrete track sample used by the witnesses. -/
def trackW1 : Track :=
  { id := 1, lng := 113, lat := 23, alt := 100, track_at := 100
  , type := "drone", size := "small" }

/-- Witness for C1: the invariant at a concrete one-sample batch. -/
theorem update_track_eviction_invariant_witness :
    ∃ store2 cmd, update_track [] [trackW1] 5 = some (store2, cmd) ∧
      (∀ t ∈ [trackW1], t.track_at ≤ 100) ∧
      ((100 : ℚ) ∈ [trackW1].map fun t => t.track_at) ∧
      (∀ p ∈ store2, ∀ t ∈ p.2, 100 - t.track_at ≤ 5) ∧
      (∀ p ∈ store2, p.2 ≠ []) ∧
      (∀ id, lookupHist (appendPhase [] [trackW1]) id =
        lookupHist [] id ++ [trackW1].filter fun t => t.id = id) :=
  update_track_eviction_invariant [] [trackW1] 5 100 (by with_unfolding_all decide)

/-- Claim C9 counterexample: an empty batch is a valid list of track samples,
yet `update_track` does not complete normally on it — Python's `max` raises
`ValueError` on an empty sequence (modelled as `none`). -/
theorem update_track_empty_batch_fails :
    update_track ([] : TrackStore) ([] : List Track) 5 = none := rfl

/-- Claim C9 (amended): for every non-empty list of track samples,
`update_track` completes normally and records the resulting state. -/
theorem update_track_total_on_nonempty (store : TrackStore) (batch : List Track)
    (ttl : ℚ) (h : batch ≠ []) : (update_track store batch ttl).isSome := by
  cases batch with
  | nil => exact absurd rfl h
  | cons t ts => simp [update_track, applyTrackBatch, maxTrackAt]

/-- Witness for C9 (amended) at a concrete one-sample batch. -/
theorem update_track_total_on_nonempty_witness :
    (update_track [] [trackW1] 5).isSome :=
  update_track_total_on_nonempty [] [trackW1] 5 (List.cons_ne_nil trackW1 [])

/-- Claim C6: the emitted track-line command re-renders the entire retained
snapshot — one entry (the full retained history) per retained id, and the id
list is the full list of retained ids, not only the ids touched by the batch. -/
theorem update_track_full_refresh (store : TrackStore) (batch : List Track)
    (ttl : ℚ) (store2 : TrackStore) (cmd : TrackCommand)
    (h : update_track store batch ttl = some (store2, cmd)) :
    cmd.ids = store2.map (fun p => p.1) ∧
    cmd.trackLines = store2.map fun p => renderTrackLine p.2 := by
  unfold update_track at h
  cases hap : applyTrackBatch store batch ttl with
  | none => rw [hap] at h; simp at h
  | some s2 =>
      rw [hap] at h
      have h2 := Option.some.inj h
      have hs : s2 = store2 := congrArg Prod.fst h2
      have hc := congrArg Prod.snd h2
      simp at hc
      rw [← hc, ← hs]
      exact ⟨rfl, rfl⟩

/-- A second concrete track sample, on a different id, for the C6 witness. -/
def trackW6 : Track :=
  { id := 2, lng := 113, lat := 24, alt := 200, track_at := 101
  , type := "bird", size := "large" }

/-- The store retained after applying `[trackW1]` and then `[trackW6]`. -/
def storeW6 : TrackStore := [(1, [trackW1]), (2, [trackW6])]

/-- The command rendered by the second batch of the C6 witness scenario. -/
def cmdW6 : TrackCommand :=
  { trackLines := [renderTrackLine [trackW1], renderTrackLine [trackW6]]
  , ids := [1, 2] }

/-- Witness for C6: after two successive batches touching disjoint ids (id 1
then id 2), the second command covers both retained ids. -/
theorem update_track_full_refresh_witness :
    cmdW6.ids = storeW6.map (fun p => p.1) ∧
    cmdW6.trackLines = storeW6.map fun p => renderTrackLine p.2 :=
  update_track_full_refresh [(1, [trackW1])] [trackW6] 5 storeW6 cmdW6 (by with_unfolding_all decide)

/-! ## The inbound envelope handler and one iteration of the serve loop -/

/-- The parse status of an inbound text message, as `json.loads` plus the
`["event"]` / `["data"]` subscripts of `on_message` (lines 124-129) observe
it: not JSON at all, JSON but not an object, or an object whose `event` and
`data` keys are each present or absent (the `data` payload is abstracted to a
string). -/
inductive InboundParse where
  | notJson
  | jsonNonObject
  | obj (event : Option String) (data : Option String)
deriving DecidableEq

/-- The uncaught Python exceptions the handler can raise. -/
inductive PyError where
  | jsonDecodeError
  | typeError
  | keyError
deriving DecidableEq

/-- What `on_message` did when it returned normally: invoked the
`device_clicked_handler` with the payload, or fell through (unrecognized
event). -/
inductive DispatchResult where
  | handlerCalled (data : String)
  | ignored
deriving DecidableEq

/-- `SceneAdaptor.on_message` (lines 124-129). There is no try/except: a parse
or key failure is an uncaught exception, modelled as `Except.error`. -/
def on_message : InboundParse → Except PyError DispatchResult
  | .notJson => .error .jsonDecodeError
  | .jsonNonObject => .error .typeError
  | .obj ev da =>
      match ev with
      | none => .error .keyError
      | some e =>
          match da with
          | none => .error .keyError
          | some d =>
              if e = "deviceClicked" then .ok (.handlerCalled d) else .ok .ignored

/-- The outbound half of one loop iteration (lines 117-122):
`mq.get_nowait()` sends the head of the queue, or does nothing when empty. -/
def sendPhase : List String → List String × Option String
  | [] => ([], none)
  | m :: rest => (rest, some m)

/-- What one iteration of `SceneAdaptor.serve` (lines 110-122) returned
normally: the remaining queue, the command sent (if any), and the dispatch
performed (if a message was received). -/
structure ServeIteration where
  queueAfter : List String
  sentCommand : Option String
  dispatched : Option DispatchResult
deriving DecidableEq

/-- One iteration of the `while True` merge loop of `SceneAdaptor.serve`
(lines 110-122): handle at most one inbound message (`none` models the
receive timeout, which is passed over), then send at most one queued command.
`on_message` is called outside any try/except, so its exception propagates
and terminates the loop: modelled as `Except.error`. -/
def serveStep (inbound : Option InboundParse) (queue : List String) :
    Except PyError ServeIteration :=
  match inbound with
  | none => .ok ⟨(sendPhase queue).1, (sendPhase queue).2, none⟩
  | some m =>
      match on_message m with
      | .error e => .error e
      | .ok d => .ok ⟨(sendPhase queue).1, (sendPhase queue).2, some d⟩

/-- Claim C4 evaluation: a malformed inbound envelope is NOT caught — the
parse failure (or missing `event`/`data` key) raises out of `on_message` and
terminates the serve loop instead of being logged and dropped. -/
theorem serve_crashes_on_malformed_message :
    serveStep (some InboundParse.notJson) [] = Except.error PyError.jsonDecodeError ∧
    serveStep (some (InboundParse.obj none none)) [] = Except.error PyError.keyError ∧
    serveStep (some (InboundParse.obj (some "deviceClicked") none)) [] =
      Except.error PyError.keyError ∧
    on_message InboundParse.notJson = Except.error PyError.jsonDecodeError :=
  ⟨rfl, rfl, rfl, rfl⟩

/-! ## The outbound command channel -/

/-- The connection states of the command channel: no live connection yet, or
one active socket being served. -/
inductive ChanState where
  | idle
  | connected
deriving DecidableEq

/-- The channel's externally visible state: its connection state, the
outbound `mq` queue (a FIFO `queue.Queue`), and the commands delivered over
the socket so far. -/
structure Channel where
  state : ChanState
  queue : List String
  delivered : List String
deriving DecidableEq

/-- The channel as `SceneAdaptor.__init__` (line 94) leaves it: empty queue,
no connection. -/
def idleChannel : Channel := ⟨ChanState.idle, [], []⟩

/-- `self.mq.put(message)`: FIFO enqueue at the tail, in any state. -/
def mqPut (c : Channel) (m : String) : Channel :=
  { c with queue := c.queue ++ [m] }

/-- Enqueue a list of commands in order. -/
def enqueueAll (c : Channel) (ms : List String) : Channel :=
  ms.foldl mqPut c

/-- A websocket connection is accepted: the serve loop starts. -/
def connect (c : Channel) : Channel := { c with state := ChanState.connected }

/-- The connection closes: back to idle; the queue is untouched (it lives on
the adaptor, not the connection). -/
def disconnect (c : Channel) : Channel := { c with state := ChanState.idle }

/-- The outbound half of one merge-loop iteration (lines 117-122): while
connected, `get_nowait` the head of the queue and send it; when the queue is
empty (or no connection is live) nothing happens. -/
def drainStep (c : Channel) : Channel :=
  match c.state with
  | ChanState.idle => c
  | ChanState.connected =>
      match c.queue with
      | [] => c
      | m :: rest => ⟨ChanState.connected, rest, c.delivered ++ [m]⟩

/-- `n` iterations of the outbound half of the merge loop. -/
def drain : Channel → Nat → Channel
  | c, 0 => c
  | c, n + 1 => drain (drainStep c) n

theorem enqueueAll_spec (c : Channel) (ms : List String) :
    enqueueAll c ms = ⟨c.state, c.queue ++ ms, c.delivered⟩ := by
  induction ms generalizing c with
  | nil => simp [enqueueAll]
  | cons m ms ih =>
      have step : enqueueAll c (m :: ms) = enqueueAll (mqPut c m) ms := rfl
      rw [step, ih]
      simp [mqPut]

theorem drain_spec (c : Channel) (n : Nat) (h : c.state = ChanState.connected) :
    drain c n = ⟨ChanState.connected, c.queue.drop n, c.delivered ++ c.queue.take n⟩ := by
  induction n generalizing c with
  | zero =>
      cases c with
      | mk s q d => simp at h; simp [drain, h]
  | succ n ih =>
      cases c with
      | mk s q d =>
          simp at h
          subst h
          cases q with
          | nil =>
              have hstep : drainStep ⟨ChanState.connected, [], d⟩ =
                  ⟨ChanState.connected, [], d⟩ := rfl
              show drain (drainStep ⟨ChanState.connected, [], d⟩) n = _
              rw [hstep, ih _ rfl]
              simp
          | cons m rest =>
              have hstep : drainStep ⟨ChanState.connected, m :: rest, d⟩ =
                  ⟨ChanState.connected, rest, d ++ [m]⟩ := rfl
              show drain (drainStep ⟨ChanState.connected, m :: rest, d⟩) n = _
              rw [hstep, ih _ rfl]
              simp

/-- Claim C5: commands enqueued while the channel is idle are all delivered,
in FIFO order, once a connection is established — before any command enqueued
after them — and a disconnect does not lose queued commands. -/
theorem channel_fifo_delivery (msgs1 msgs2 : List String) (n : Nat) :
    (drain (enqueueAll (connect (enqueueAll idleChannel msgs1)) msgs2) n).delivered =
      (msgs1 ++ msgs2).take n ∧
    (drain (enqueueAll (connect (enqueueAll idleChannel msgs1)) msgs2)
        msgs1.length).delivered = msgs1 ∧
    (disconnect (enqueueAll (connect (enqueueAll idleChannel msgs1)) msgs2)).queue =
      msgs1 ++ msgs2 := by
  have hc : enqueueAll (connect (enqueueAll idleChannel msgs1)) msgs2 =
      ⟨ChanState.connected, msgs1 ++ msgs2, []⟩ := by
    rw [enqueueAll_spec idleChannel msgs1]
    show enqueueAll ⟨ChanState.connected, [] ++ msgs1, []⟩ msgs2 = _
    rw [enqueueAll_spec]
    simp
  refine ⟨?_, ?_, ?_⟩
  · rw [hc, drain_spec _ n rfl]
    simp
  · rw [hc, drain_spec _ msgs1.length rfl]
    simp [List.take_left]
  · rw [hc]
    rfl

/-! ## The cuboid zone footprint -/

/-- Model of `CuboidZone` (src/scene_adaptor.py, lines 64-76). -/
structure CuboidZone where
  id : String
  type : String
  lng : ℚ
  lat : ℚ
  length_in_meter : ℚ
  width_in_meter : ℚ
  height_in_meter : ℚ
  rotation : ℚ
deriving DecidableEq

/-- The `zones.addCuboid` command payload (lines 259-274): the four derived
corner points as (lng, lat) pairs, in emission order. -/
structure CuboidCommand where
  id : String
  type : String
  positions : List (ℚ × ℚ)
  heightInMeter : ℚ
  color : ℚ × ℚ × ℚ × ℚ
deriving DecidableEq

/-- `SceneAdaptor.add_cuboid_zone` (lines 242-275), parameterized over the
external real-valued helpers it calls: `atan2deg y x` stands for
`degrees(atan2(y, x))`, `sqrtQ` for `math.sqrt`, and `dirGeo lat lng azi dist`
for `Geodesic.WGS84.Direct` returning the destination as (lon2, lat2). -/
def add_cuboid_zone (atan2deg : ℚ → ℚ → ℚ) (sqrtQ : ℚ → ℚ)
    (dirGeo : ℚ → ℚ → ℚ → ℚ → ℚ × ℚ) (z : CuboidZone)
    (color : ℚ × ℚ × ℚ × ℚ) : CuboidCommand :=
  let deviation := atan2deg z.width_in_meter z.length_in_meter
  let azimuths := [z.rotation - deviation, z.rotation + deviation,
                   z.rotation + 180 - deviation, z.rotation + 180 + deviation]
  let diagonal := sqrtQ (z.length_in_meter ^ 2 + z.width_in_meter ^ 2) / 2
  { id := z.id
  , type := z.type
  , positions := azimuths.map fun azi => dirGeo z.lat z.lng azi diagonal
  , heightInMeter := z.height_in_meter
  , color := color }

/-- Claim C3: `add_cuboid_zone` emits exactly four corner points, in this
exact order, each obtained by the geodesic direct problem from the center
with distance `sqrt(length² + width²) / 2` and azimuths
`rotation − deviation`, `rotation + deviation`, `rotation + 180 − deviation`,
`rotation + 180 + deviation`, where `deviation = atan2(width, length)` in
degrees. -/
theorem add_cuboid_zone_corners (atan2deg : ℚ → ℚ → ℚ) (sqrtQ : ℚ → ℚ)
    (dirGeo : ℚ → ℚ → ℚ → ℚ → ℚ × ℚ) (z : CuboidZone)
    (color : ℚ × ℚ × ℚ × ℚ) :
    (add_cuboid_zone atan2deg sqrtQ dirGeo z color).positions =
      [dirGeo z.lat z.lng
        (z.rotation - atan2deg z.width_in_meter z.length_in_meter)
        (sqrtQ (z.length_in_meter ^ 2 + z.width_in_meter ^ 2) / 2),
       dirGeo z.lat z.lng
        (z.rotation + atan2deg z.width_in_meter z.length_in_meter)
        (sqrtQ (z.length_in_meter ^ 2 + z.width_in_meter ^ 2) / 2),
       dirGeo z.lat z.lng
        (z.rotation + 180 - atan2deg z.width_in_meter z.length_in_meter)
        (sqrtQ (z.length_in_meter ^ 2 + z.width_in_meter ^ 2) / 2),
       dirGeo z.lat z.lng
        (z.rotation + 180 + atan2deg z.width_in_meter z.length_in_meter)
        (sqrtQ (z.length_in_meter ^ 2 + z.width_in_meter ^ 2) / 2)] ∧
    (add_cuboid_zone atan2deg sqrtQ dirGeo z color).positions.length = 4 :=
  ⟨rfl, rfl⟩

/-! ## The airplane store and `update_airplane` -/

/-- Model of `Airplane` (src/scene_adaptor.py, lines 40-49). -/
structure Airplane where
  id : String
  lng : ℚ
  lat : ℚ
  alt : ℚ
  track_at : ℚ
  name : String
deriving DecidableEq

/-- The airplane store `SceneAdaptor.airplanes` (a `Dict[str, Airplane]`), as
an association list in dict insertion order. -/
abbrev AirplaneStore := List (String × Airplane)

/-- Dict lookup, as used by `airplane.id in self.airplanes` (line 324) and
`self.airplanes[airplane.id]` (line 330). -/
def lookupA : AirplaneStore → String → Option Airplane
  | [], _ => none
  | p :: ps, id => if p.1 = id then some p.2 else lookupA ps id

/-- Lines 324-331 minus the rotation computation: capture the previous sample
for the id (or `none` on first sighting) and record the new sample; a known
id keeps its dict position, a new id is appended at the end. -/
def airplaneStep (store : AirplaneStore) (a : Airplane) :
    Option Airplane × AirplaneStore :=
  match lookupA store a.id with
  | none => (none, store ++ [(a.id, a)])
  | some last =>
      (some last, store.map fun p => if p.1 = a.id then (p.1, a) else p)

/-- The fields of a `Geodesic.WGS84.Inverse` result the code reads: `s12`
(distance in meters) and `azi2` (final azimuth in degrees). -/
structure InverseResult where
  s12 : ℚ
  azi2 : ℚ
deriving DecidableEq

/-- Lines 326-335: the three rotation values. With no previous sample all are
`None`; otherwise `rotate_x = degrees(atan2(alt_new - alt_last, s12))`
(the composite `degrees(atan2(y, x))` is the parameter `atan2deg`),
`rotate_y = None`, and `rotate_z = azi2`, where `invGeo lat1 lng1 lat2 lng2`
models `Geodesic.WGS84.Inverse`. -/
def computeRotations (invGeo : ℚ → ℚ → ℚ → ℚ → InverseResult)
    (atan2deg : ℚ → ℚ → ℚ) (last : Option Airplane) (a : Airplane) :
    Option ℚ × Option ℚ × Option ℚ :=
  match last with
  | none => (none, none, none)
  | some l =>
      (some (atan2deg (a.alt - l.alt) (invGeo l.lat l.lng a.lat a.lng).s12),
       none,
       some ((invGeo l.lat l.lng a.lat a.lng).azi2))

/-- The eviction pass of `update_airplane` (lines 337-339): keep the
airplanes within `clear_timeout` of the incoming sample's timestamp. -/
def evictAirplanes (store : AirplaneStore) (latest ttl : ℚ) : AirplaneStore :=
  store.filter fun p => latest - p.2.track_at ≤ ttl

/-- Python truthiness of `{x if x else "null"}` (lines 349-351) over an
optional float: `None` and `0.0` are falsy and render as `null`; any other
value renders itself. -/
def pyTruthy : Option ℚ → Option ℚ
  | none => none
  | some v => if v = 0 then none else some v

/-- One airplane entry of the `airplanes.show` command (lines 342-369). The
entry for the just-updated id uses the `heightInMeter` key and the
truthiness-filtered rotations; every other entry uses the `height` key and
literal `null` rotations. -/
structure AirplaneEntry where
  lng : ℚ
  lat : ℚ
  alt : ℚ
  scale : ℚ
  rotateX : Option ℚ
  rotateY : Option ℚ
  rotateZ : Option ℚ
  name : String
  heightKeyInMeter : Bool
deriving DecidableEq

/-- Rendering of one stored airplane into its command entry (lines 343-369):
the loop body of `update_airplane`, branching on
`airplaneToShow.id == airplane.id`. -/
def renderAirplaneEntry (updatedId : String)
    (rot : Option ℚ × Option ℚ × Option ℚ) (v : Airplane) : AirplaneEntry :=
  if v.id = updatedId then
    { lng := v.lng, lat := v.lat, alt := v.alt, scale := 40
    , rotateX := pyTruthy rot.1, rotateY := pyTruthy rot.2.1
    , rotateZ := pyTruthy rot.2.2, name := v.name, heightKeyInMeter := true }
  else
    { lng := v.lng, lat := v.lat, alt := v.alt, scale := 40
    , rotateX := none, rotateY := none, rotateZ := none
    , name := v.name, heightKeyInMeter := false }

/-- `SceneAdaptor.update_airplane` (lines 323-375): record the sample, derive
the rotations, evict stale airplanes, and render one entry per retained
airplane. -/
def update_airplane (invGeo : ℚ → ℚ → ℚ → ℚ → InverseResult)
    (atan2deg : ℚ → ℚ → ℚ) (store : AirplaneStore) (a : Airplane) (ttl : ℚ) :
    AirplaneStore × List AirplaneEntry :=
  let store2 := evictAirplanes (airplaneStep store a).2 a.track_at ttl
  (store2, store2.map fun p =>
    renderAirplaneEntry a.id
      (computeRotations invGeo atan2deg (airplaneStep store a).1 a) p.2)

theorem lookupA_append_self (store : AirplaneStore) (a : Airplane)
    (h : lookupA store a.id = none) :
    lookupA (store ++ [(a.id, a)]) a.id = some a := by
  induction store with
  | nil => simp [lookupA]
  | cons p ps ih =>
      by_cases hp : p.1 = a.id
      · simp [lookupA, hp] at h
      · simp [lookupA, hp] at h ⊢
        exact ih h

/-! ## Claims about `update_airplane` -/

/-- Claim C7: every airplane update emits one entry per aircraft retained
after eviction; only an entry whose aircraft id equals the updated airplane's
id can carry orientation axes, and every other aircraft's entry has all three
axes explicitly unset, even when that aircraft has a retained prior sample. -/
theorem update_airplane_full_refresh (invGeo : ℚ → ℚ → ℚ → ℚ → InverseResult)
    (atan2deg : ℚ → ℚ → ℚ) (store : AirplaneStore) (a : Airplane) (ttl : ℚ) :
    (update_airplane invGeo atan2deg store a ttl).2 =
      (update_airplane invGeo atan2deg store a ttl).1.map
        (fun p => renderAirplaneEntry a.id
          (computeRotations invGeo atan2deg (airplaneStep store a).1 a) p.2) ∧
    (∀ p ∈ (update_airplane invGeo atan2deg store a ttl).1, p.2.id ≠ a.id →
      (renderAirplaneEntry a.id
          (computeRotations invGeo atan2deg (airplaneStep store a).1 a)
          p.2).rotateX = none ∧
      (renderAirplaneEntry a.id
          (computeRotations invGeo atan2deg (airplaneStep store a).1 a)
          p.2).rotateY = none ∧
      (renderAirplaneEntry a.id
          (computeRotations invGeo atan2deg (airplaneStep store a).1 a)
          p.2).rotateZ = none) ∧
    (∀ p ∈ (update_airplane invGeo atan2deg store a ttl).1,
      ((renderAirplaneEntry a.id
          (computeRotations invGeo atan2deg (airplaneStep store a).1 a)
          p.2).rotateX ≠ none ∨
       (renderAirplaneEntry a.id
          (computeRotations invGeo atan2deg (airplaneStep store a).1 a)
          p.2).rotateY ≠ none ∨
       (renderAirplaneEntry a.id
          (computeRotations invGeo atan2deg (airplaneStep store a).1 a)
          p.2).rotateZ ≠ none) → p.2.id = a.id) := by
  refine ⟨rfl, ?_, ?_⟩
  · intro p hp hne
    refine ⟨?_, ?_, ?_⟩ <;> simp [renderAirplaneEntry, hne]
  · intro p hp h
    by_cases hid : p.2.id = a.id
    · exact hid
    · exfalso
      rcases h with h | h | h <;> simp [renderAirplaneEntry, hid] at h

/-- Claim C8: a first sighting (id not in the store) records the sample with
no previous sample captured and every emitted orientation axis unset;
conversely, with a prior retained sample the orientation is derived from the
pair (previous sample, new sample). -/
theorem update_airplane_first_sighting (invGeo : ℚ → ℚ → ℚ → ℚ → InverseResult)
    (atan2deg : ℚ → ℚ → ℚ) (store : AirplaneStore) (a : Airplane) (ttl : ℚ) :
    (lookupA store a.id = none →
      (airplaneStep store a).1 = none ∧
      lookupA (airplaneStep store a).2 a.id = some a ∧
      ∀ e ∈ (update_airplane invGeo atan2deg store a ttl).2,
        e.rotateX = none ∧ e.rotateY = none ∧ e.rotateZ = none) ∧
    (∀ last, lookupA store a.id = some last →
      (airplaneStep store a).1 = some last ∧
      computeRotations invGeo atan2deg (airplaneStep store a).1 a =
        (some (atan2deg (a.alt - last.alt)
          (invGeo last.lat last.lng a.lat a.lng).s12),
         none,
         some ((invGeo last.lat last.lng a.lat a.lng).azi2))) := by
  constructor
  · intro h
    have hstep1 : (airplaneStep store a).1 = none := by
      simp [airplaneStep, h]
    have hstep2 : (airplaneStep store a).2 = store ++ [(a.id, a)] := by
      simp [airplaneStep, h]
    refine ⟨hstep1, ?_, ?_⟩
    · rw [hstep2]
      exact lookupA_append_self store a h
    · intro e he
      have he2 : e ∈ ((update_airplane invGeo atan2deg store a ttl).1).map
          (fun p => renderAirplaneEntry a.id
            (computeRotations invGeo atan2deg (airplaneStep store a).1 a) p.2) := he
      rcases List.mem_map.mp he2 with ⟨p, hp, rfl⟩
      rw [hstep1]
      by_cases hid : p.2.id = a.id <;>
        simp [renderAirplaneEntry, computeRotations, pyTruthy, hid]
  · intro last h
    have hstep1 : (airplaneStep store a).1 = some last := by
      simp [airplaneStep, h]
    exact ⟨hstep1, by rw [hstep1]; rfl⟩

/-- A concrete airplane pair flying due north at constant altitude, for the
zero-rotation scenarios. -/
def planeA : Airplane :=
  { id := "a1", lng := 0, lat := 0, alt := 200, track_at := 0, name := "CZ1" }

/-- The next due-north sample of the same airplane: same id, same longitude
and altitude, one degree further north, one second later. -/
def planeA2 : Airplane :=
  { id := "a1", lng := 0, lat := 1, alt := 200, track_at := 1, name := "CZ1" }

/-- A model of `Geodesic.WGS84.Inverse` exact for the due-north pair the
concrete scenarios use: for motion due north along a meridian the final
azimuth is 0 and the distance is about 110574 m. -/
def invNorth : ℚ → ℚ → ℚ → ℚ → InverseResult := fun _ _ _ _ => ⟨110574, 0⟩

/-- A model of `degrees(atan2(y, x))` exact on the axis the concrete
scenarios touch: `atan2(0, x) = 0` for `x > 0` (level flight); elsewhere some
nonzero angle. -/
def atan2degW : ℚ → ℚ → ℚ := fun y x => if y = 0 ∧ 0 < x then 0 else 45

/-- Claim C2 counterexample: for a level due-north flight the computed
vertical rotation `degrees(atan2(0, distance))` and the computed final
azimuth are both exactly 0, and the emitted entry carries `null` (unset) for
both axes instead of the computed value 0 — the renderer tests the
truthiness of the value, so the claim fails for computed rotations equal
to 0. -/
theorem update_airplane_rotation_dropped_at_zero :
    atan2degW (planeA2.alt - planeA.alt)
      ((invNorth planeA.lat planeA.lng planeA2.lat planeA2.lng).s12) = 0 ∧
    (invNorth planeA.lat planeA.lng planeA2.lat planeA2.lng).azi2 = 0 ∧
    lookupA [(planeA.id, planeA)] planeA2.id = some planeA ∧
    ((update_airplane invNorth atan2degW [(planeA.id, planeA)] planeA2 10).2.map
      fun e => (e.rotateX, e.rotateZ)) = [(none, none)] :=
  ⟨by with_unfolding_all decide, rfl, by with_unfolding_all decide,
    by with_unfolding_all decide⟩

/-- Claim C2 (amended): for an airplane update whose id has a prior retained
sample, the updated aircraft's emitted entry carries
`rotateX = degrees(atan2(alt_new − alt_prev, s12))` and `rotateZ = azi2`
from the geodesic inverse of (prev, new) whenever those computed values are
nonzero (a computed value of exactly 0 is emitted unset), and the third axis
`rotateY` is always unset. -/
theorem update_airplane_orientation (invGeo : ℚ → ℚ → ℚ → ℚ → InverseResult)
    (atan2deg : ℚ → ℚ → ℚ) (store : AirplaneStore) (a last : Airplane)
    (ttl : ℚ) (p : String × Airplane)
    (hlast : lookupA store a.id = some last)
    (hx : atan2deg (a.alt - last.alt)
      (invGeo last.lat last.lng a.lat a.lng).s12 ≠ 0)
    (hz : (invGeo last.lat last.lng a.lat a.lng).azi2 ≠ 0)
    (hp : p ∈ (update_airplane invGeo atan2deg store a ttl).1)
    (hid : p.2.id = a.id) :
    renderAirplaneEntry a.id
        (computeRotations invGeo atan2deg (airplaneStep store a).1 a) p.2 ∈
      (update_airplane invGeo atan2deg store a ttl).2 ∧
    (renderAirplaneEntry a.id
        (computeRotations invGeo atan2deg (airplaneStep store a).1 a)
        p.2).rotateX =
      some (atan2deg (a.alt - last.alt)
        (invGeo last.lat last.lng a.lat a.lng).s12) ∧
    (renderAirplaneEntry a.id
        (computeRotations invGeo atan2deg (airplaneStep store a).1 a)
        p.2).rotateY = none ∧
    (renderAirplaneEntry a.id
        (computeRotations invGeo atan2deg (airplaneStep store a).1 a)
        p.2).rotateZ =
      some ((invGeo last.lat last.lng a.lat a.lng).azi2) := by
  have hstep1 : (airplaneStep store a).1 = some last := by
    simp [airplaneStep, hlast]
  refine ⟨List.mem_map.mpr ⟨p, hp, rfl⟩, ?_, ?_, ?_⟩ <;>
    rw [hstep1] <;>
    simp [renderAirplaneEntry, computeRotations, pyTruthy, hid, hx, hz]

/-- A concrete airplane pair climbing eastward, for the nonzero-rotation
witness. -/
def planeB : Airplane :=
  { id := "b1", lng := 0, lat := 0, alt := 200, track_at := 0, name := "CZ2" }

/-- The next sample of the eastward airplane: one degree east, 200 m higher,
one second later. -/
def planeB2 : Airplane :=
  { id := "b1", lng := 1, lat := 0, alt := 400, track_at := 1, name := "CZ2" }

/-- A model of `Geodesic.WGS84.Inverse` for the eastward pair: distance about
111319 m and final azimuth 90 (due east). -/
def invEast : ℚ → ℚ → ℚ → ℚ → InverseResult := fun _ _ _ _ => ⟨111319, 90⟩

/-- Witness for C2 (amended): the climbing eastward update carries the
computed (nonzero) vertical rotation and final azimuth, and `rotateY` unset. -/
theorem update_airplane_orientation_witness :
    renderAirplaneEntry planeB2.id
        (computeRotations invEast atan2degW
          (airplaneStep [(planeB.id, planeB)] planeB2).1 planeB2)
        (planeB.id, planeB2).2 ∈
      (update_airplane invEast atan2degW [(planeB.id, planeB)] planeB2 10).2 ∧
    (renderAirplaneEntry planeB2.id
        (computeRotations invEast atan2degW
          (airplaneStep [(planeB.id, planeB)] planeB2).1 planeB2)
        (planeB.id, planeB2).2).rotateX =
      some (atan2degW (planeB2.alt - planeB.alt)
        (invEast planeB.lat planeB.lng planeB2.lat planeB2.lng).s12) ∧
    (renderAirplaneEntry planeB2.id
        (computeRotations invEast atan2degW
          (airplaneStep [(planeB.id, planeB)] planeB2).1 planeB2)
        (planeB.id, planeB2).2).rotateY = none ∧
    (renderAirplaneEntry planeB2.id
        (computeRotations invEast atan2degW
          (airplaneStep [(planeB.id, planeB)] planeB2).1 planeB2)
        (planeB.id, planeB2).2).rotateZ =
      some ((invEast planeB.lat planeB.lng planeB2.lat planeB2.lng).azi2) :=
  update_airplane_orientation invEast atan2degW [(planeB.id, planeB)] planeB2
    planeB 10 (planeB.id, planeB2) (by with_unfolding_all decide)
    (by with_unfolding_all decide) (by with_unfolding_all decide)
    (by with_unfolding_all decide) rfl

/-- Claim C10: when an airplane update has a prior retained sample but a
computed orientation axis is exactly 0, that axis is emitted unset (`null`)
in every entry of the command — the renderer selects on the truthiness of the
computed value, not on whether a previous sample exists. -/
theorem update_airplane_zero_axis_unset (invGeo : ℚ → ℚ → ℚ → ℚ → InverseResult)
    (atan2deg : ℚ → ℚ → ℚ) (store : AirplaneStore) (a last : Airplane)
    (ttl : ℚ) (hlast : lookupA store a.id = some last) :
    (atan2deg (a.alt - last.alt)
        (invGeo last.lat last.lng a.lat a.lng).s12 = 0 →
      ∀ e ∈ (update_airplane invGeo atan2deg store a ttl).2, e.rotateX = none) ∧
    ((invGeo last.lat last.lng a.lat a.lng).azi2 = 0 →
      ∀ e ∈ (update_airplane invGeo atan2deg store a ttl).2, e.rotateZ = none) := by
  have hstep1 : (airplaneStep store a).1 = some last := by
    simp [airplaneStep, hlast]
  constructor
  · intro h0 e he
    have he2 : e ∈ ((update_airplane invGeo atan2deg store a ttl).1).map
        (fun p => renderAirplaneEntry a.id
          (computeRotations invGeo atan2deg (airplaneStep store a).1 a) p.2) := he
    rcases List.mem_map.mp he2 with ⟨p, hp, rfl⟩
    rw [hstep1]
    by_cases hid : p.2.id = a.id <;>
      simp [renderAirplaneEntry, computeRotations, pyTruthy, hid, h0]
  · intro h0 e he
    have he2 : e ∈ ((update_airplane invGeo atan2deg store a ttl).1).map
        (fun p => renderAirplaneEntry a.id
          (computeRotations invGeo atan2deg (airplaneStep store a).1 a) p.2) := he
    rcases List.mem_map.mp he2 with ⟨p, hp, rfl⟩
    rw [hstep1]
    by_cases hid : p.2.id = a.id <;>
      simp [renderAirplaneEntry, computeRotations, pyTruthy, hid, h0]

/-- Witness for C10: in the level due-north scenario both computed axes are 0
and every emitted entry has both axes unset. -/
theorem update_airplane_zero_axis_unset_witness :
    (∀ e ∈ (update_airplane invNorth atan2degW [(planeA.id, planeA)] planeA2
        10).2, e.rotateX = none) ∧
    (∀ e ∈ (update_airplane invNorth atan2degW [(planeA.id, planeA)] planeA2
        10).2, e.rotateZ = none) :=
  have h := update_airplane_zero_axis_unset invNorth atan2degW
    [(planeA.id, planeA)] planeA2 planeA 10 (by with_unfolding_all decide)
  ⟨h.1 (by with_unfolding_all decide), h.2 rfl⟩

end MonitorAdaptor
